import Mathlib

/-!
# Verification of the Miden VM chiplets module

A shallow embedding of `processor/src/chiplets/mod.rs` and
`processor/src/chiplets/aux_trace/mod.rs`, together with theorems checking the
natural-language specification of the chiplets aggregator, the trace composer,
and the two auxiliary-column builders (the chiplets bus argument and the
chiplets virtual-table argument).

The base field of the VM is the Goldilocks field with modulus
`P = 2^64 - 2^32 + 1`; we first certify that `P` is prime (Lucas certificate
with the generator `7`), so that `ZMod P` is a field.
-/

namespace MidenChiplets

/-- The Goldilocks prime `2^64 - 2^32 + 1`, the modulus of the VM base field. -/
def P : ℕ := 18446744069414584321

/-- Fuel-driven binary modular exponentiation: `powModAux fuel n b e = b ^ e % n`
whenever `0 < n` and `e < 2 ^ fuel`. -/
def powModAux : ℕ → ℕ → ℕ → ℕ → ℕ
  | 0, n, _, _ => 1 % n
  | fuel + 1, n, b, e =>
    if e = 0 then 1 % n
    else
      let h := powModAux fuel n (b * b % n) (e / 2)
      if e % 2 = 1 then h * b % n else h


/-- The VM base field (`Felt` in the source): the Goldilocks field. -/
abbrev Felt : Type := ZMod P

/-!
## Structural constants of the chiplet traces

From `miden-air` (`trace/chiplets/...`): the RPO hasher state is 12 base-field
elements wide, its capacity is the first 4, the digest occupies positions
4..8, a hash cycle is 8 rows and the permutation has 7 rounds; a bitwise
operation cycle is 8 rows; the composed chiplets table has 18 columns.
-/

def STATE_WIDTH : ℕ := 12

def CAPACITY_LEN : ℕ := 4

/-- Start of `DIGEST_RANGE` (`4..8`) in the hasher state. -/
def DIGEST_START : ℕ := 4

/-- End (exclusive) of `DIGEST_RANGE` (`4..8`) in the hasher state. -/
def DIGEST_END : ℕ := 8

def HASH_CYCLE_LEN : ℕ := 8

def NUM_ROUNDS : ℕ := 7

def BITWISE_OP_CYCLE_LEN : ℕ := 8

def CHIPLETS_WIDTH : ℕ := 18

def NUM_HEADER_ALPHAS : ℕ := 4

/-!
## The main trace, viewed through its accessors

`MainTrace` (from `miden-air`) is consumed by the auxiliary-column builders
exclusively through row-indexed accessors; we model it as a structure holding
exactly those accessors.  Multi-element accessors (`decoder_hasher_state`,
`chiplet_hasher_state`) take the element index as a second argument.
-/

structure MainTrace where
  get_op_code : ℕ → Felt
  addr : ℕ → Felt
  ctx : ℕ → Felt
  clk : ℕ → Felt
  stack_element : ℕ → ℕ → Felt
  helper_register : ℕ → ℕ → Felt
  decoder_hasher_state : ℕ → ℕ → Felt
  chiplet_selector_0 : ℕ → Felt
  chiplet_selector_1 : ℕ → Felt
  chiplet_selector_2 : ℕ → Felt
  chiplet_selector_3 : ℕ → Felt
  chiplet_selector_4 : ℕ → Felt
  chiplet_hasher_state : ℕ → ℕ → Felt
  chiplet_node_index : ℕ → Felt
  chiplet_bitwise_a : ℕ → Felt
  chiplet_bitwise_b : ℕ → Felt
  chiplet_bitwise_z : ℕ → Felt
  chiplet_memory_ctx : ℕ → Felt
  chiplet_memory_clk : ℕ → Felt
  chiplet_memory_addr : ℕ → Felt
  chiplet_memory_value_0 : ℕ → Felt
  chiplet_memory_value_1 : ℕ → Felt
  chiplet_memory_value_2 : ℕ → Felt
  chiplet_memory_value_3 : ℕ → Felt
  chiplet_kernel_addr : ℕ → Felt
  chiplet_kernel_root_0 : ℕ → Felt
  chiplet_kernel_root_1 : ℕ → Felt
  chiplet_kernel_root_2 : ℕ → Felt
  chiplet_kernel_root_3 : ℕ → Felt
  f_mv : ℕ → Bool
  f_mva : ℕ → Bool
  f_mu : ℕ → Bool
  f_mua : ℕ → Bool
  is_kernel_row : ℕ → Bool
  is_addr_change : ℕ → Bool

/-!
## External protocol constants

The numeric values of the operation labels and of the opcodes live in
`miden-air` / `vm-core`, outside the sources under verification; the builders
only rely on them as fixed constants, so we keep them abstract in a record of
parameters.
-/

structure ExtConsts where
  opJoin : ℕ
  opSplit : ℕ
  opLoop : ℕ
  opDyn : ℕ
  opCall : ℕ
  opSyscall : ℕ
  opSpan : ℕ
  opRespan : ℕ
  opEnd : ℕ
  opAnd : ℕ
  opXor : ℕ
  opMloadw : ℕ
  opMstorew : ℕ
  opMload : ℕ
  opMstore : ℕ
  opMstream : ℕ
  opRcombbase : ℕ
  opHperm : ℕ
  opMpverify : ℕ
  opMrupdate : ℕ
  LINEAR_HASH_LABEL : ℕ
  RETURN_HASH_LABEL : ℕ
  RETURN_STATE_LABEL : ℕ
  MP_VERIFY_LABEL : ℕ
  MR_UPDATE_NEW_LABEL : ℕ
  MR_UPDATE_OLD_LABEL : ℕ
  KERNEL_PROC_LABEL : Felt
  MEMORY_READ_LABEL : ℕ
  MEMORY_WRITE_LABEL : ℕ

section AuxBuilders

variable {E : Type} [CommRing E] [Algebra Felt E]

/-- `E::mul_base`: multiply an extension-field element by a base-field one. -/
def mulBase (x : E) (y : Felt) : E := x * algebraMap Felt E y

/-!
## Virtual table argument builder
(`chiplets/aux_trace/mod.rs`, `ChipletsVTableColBuilder` and its helpers)
-/

/-- `chiplets_vtable_add_sibling`: the inclusion into the sibling table when
the hasher absorbs a new sibling node while computing the old Merkle root.
The sibling is read from the right half `state[8..12]` of the hasher state
when the node index is even, from the digest half `state[4..8]` when odd. -/
def chiplets_vtable_add_sibling (mt : MainTrace) (alphas : ℕ → E) (row : ℕ) : E :=
  let fMv : Bool := mt.f_mv row
  let fMva : Bool := if row = 0 then false else mt.f_mva (row - 1)
  if fMv || fMva then
    let index : Felt :=
      if fMva then mt.chiplet_node_index (row - 1) else mt.chiplet_node_index row
    let lsb : ℕ := index.val % 2
    if lsb = 0 then
      alphas 0 + mulBase (alphas 3) index
        + mulBase (alphas 12) (mt.chiplet_hasher_state row 8)
        + mulBase (alphas 13) (mt.chiplet_hasher_state row 9)
        + mulBase (alphas 14) (mt.chiplet_hasher_state row 10)
        + mulBase (alphas 15) (mt.chiplet_hasher_state row 11)
    else
      alphas 0 + mulBase (alphas 3) index
        + mulBase (alphas 8) (mt.chiplet_hasher_state row 4)
        + mulBase (alphas 9) (mt.chiplet_hasher_state row 5)
        + mulBase (alphas 10) (mt.chiplet_hasher_state row 6)
        + mulBase (alphas 11) (mt.chiplet_hasher_state row 7)
  else 1

/-- `chiplets_vtable_remove_sibling`: the removal from the sibling table when
the hasher absorbs a new sibling node while computing the new Merkle root. -/
def chiplets_vtable_remove_sibling (mt : MainTrace) (alphas : ℕ → E) (row : ℕ) : E :=
  let fMu : Bool := mt.f_mu row
  let fMua : Bool := if row = 0 then false else mt.f_mua (row - 1)
  if fMu || fMua then
    let index : Felt :=
      if fMua then mt.chiplet_node_index (row - 1) else mt.chiplet_node_index row
    let lsb : ℕ := index.val % 2
    if lsb = 0 then
      alphas 0 + mulBase (alphas 3) index
        + mulBase (alphas 12) (mt.chiplet_hasher_state row 8)
        + mulBase (alphas 13) (mt.chiplet_hasher_state row 9)
        + mulBase (alphas 14) (mt.chiplet_hasher_state row 10)
        + mulBase (alphas 15) (mt.chiplet_hasher_state row 11)
    else
      alphas 0 + mulBase (alphas 3) index
        + mulBase (alphas 8) (mt.chiplet_hasher_state row 4)
        + mulBase (alphas 9) (mt.chiplet_hasher_state row 5)
        + mulBase (alphas 10) (mt.chiplet_hasher_state row 6)
        + mulBase (alphas 11) (mt.chiplet_hasher_state row 7)
  else 1

/-- `chiplets_kernel_table_include`: inclusion into the kernel procedure
table at kernel-segment rows where the address changes. -/
def chiplets_kernel_table_include (mt : MainTrace) (alphas : ℕ → E) (row : ℕ) : E :=
  if mt.is_kernel_row row && mt.is_addr_change row then
    alphas 0 + mulBase (alphas 1) (mt.addr row)
      + mulBase (alphas 2) (mt.chiplet_kernel_root_0 row)
      + mulBase (alphas 3) (mt.chiplet_kernel_root_1 row)
      + mulBase (alphas 4) (mt.chiplet_kernel_root_2 row)
      + mulBase (alphas 5) (mt.chiplet_kernel_root_3 row)
  else 1

/-- `ChipletsVTableColBuilder::get_requests_at`. -/
def vtable_get_requests_at (mt : MainTrace) (alphas : ℕ → E) (row : ℕ) : E :=
  chiplets_vtable_remove_sibling mt alphas row

/-- `ChipletsVTableColBuilder::get_responses_at`. -/
def vtable_get_responses_at (mt : MainTrace) (alphas : ℕ → E) (row : ℕ) : E :=
  chiplets_vtable_add_sibling mt alphas row * chiplets_kernel_table_include mt alphas row

/-- The node index selected by `chiplets_vtable_add_sibling`: the previous
row's index when the absorption-continuation flag `f_mva` was set there,
otherwise the current row's index. -/
def vtableAddIndex (mt : MainTrace) (row : ℕ) : Felt :=
  let fMva : Bool := if row = 0 then false else mt.f_mva (row - 1)
  if fMva then mt.chiplet_node_index (row - 1) else mt.chiplet_node_index row

/-- The node index selected by `chiplets_vtable_remove_sibling`. -/
def vtableRemoveIndex (mt : MainTrace) (row : ℕ) : Felt :=
  let fMua : Bool := if row = 0 then false else mt.f_mua (row - 1)
  if fMua then mt.chiplet_node_index (row - 1) else mt.chiplet_node_index row

/-- The sibling value common to both virtual-table builders: header plus the
half of the hasher state selected by the parity of the node index. -/
def sibValue (alphas : ℕ → E) (index : Felt) (st : ℕ → Felt) : E :=
  if index.val % 2 = 0 then
    alphas 0 + mulBase (alphas 3) index
      + mulBase (alphas 12) (st 8) + mulBase (alphas 13) (st 9)
      + mulBase (alphas 14) (st 10) + mulBase (alphas 15) (st 11)
  else
    alphas 0 + mulBase (alphas 3) index
      + mulBase (alphas 8) (st 4) + mulBase (alphas 9) (st 5)
      + mulBase (alphas 10) (st 6) + mulBase (alphas 11) (st 7)

/-!
## Bus argument builder helpers
(`chiplets/aux_trace/mod.rs`, helper functions)
-/

/-- `build_value(&alphas[alo..ahi], elements)`: reduce a slice of `ahi - alo`
base-field elements against the challenge slice starting at `alo`. -/
def build_value (alphas : ℕ → E) (alo ahi : ℕ) (elements : ℕ → Felt) : E :=
  ∑ i ∈ Finset.range (ahi - alo), mulBase (alphas (alo + i)) (elements i)

/-- `get_op_label`: the unique label of an operation, from the selectors. -/
def get_op_label (s0 s1 s2 s3 : Felt) : Felt :=
  s3 * 8 + s2 * 4 + s1 * 2 + s0 + 1

/-- `addr_to_hash_cycle`: hash-cycle row of a hasher address (addresses are
1-based; valid addresses are nonzero, so the `u64` subtraction does not
underflow). -/
def addr_to_hash_cycle (addr : Felt) : ℕ :=
  (addr.val - 1) % HASH_CYCLE_LEN

/-- `addr_to_row_index`: convert a 1-based hasher address to a row index. -/
def addr_to_row_index (addr : Felt) : ℕ :=
  addr.val - 1

/-- A memory word: four base-field elements. -/
structure Word4 where
  w0 : Felt
  w1 : Felt
  w2 : Felt
  w3 : Felt
deriving DecidableEq

/-- `compute_memory_request`: a memory read/write request value. -/
def compute_memory_request (mt : MainTrace) (op_label : ℕ) (alphas : ℕ → E)
    (row : ℕ) (addr : Felt) (value : Word4) : E :=
  alphas 0 + mulBase (alphas 1) ((op_label : ℕ) : Felt)
    + mulBase (alphas 2) (mt.ctx row)
    + mulBase (alphas 3) addr
    + mulBase (alphas 4) (mt.clk row)
    + mulBase (alphas 5) value.w0
    + mulBase (alphas 6) value.w1
    + mulBase (alphas 7) value.w2
    + mulBase (alphas 8) value.w3

/-!
## Bus argument: requests
-/

/-- `build_control_block_request`. -/
def build_control_block_request (k : ExtConsts) (mt : MainTrace)
    (op_code_felt : Felt) (alphas : ℕ → E) (row : ℕ) : E :=
  let op_label := k.LINEAR_HASH_LABEL
  let addr_nxt := mt.addr (row + 1)
  let transition_label : ℕ :=
    if addr_to_row_index addr_nxt % HASH_CYCLE_LEN = 0 then op_label + 16 else op_label + 32
  let header := alphas 0 + mulBase (alphas 1) ((transition_label : ℕ) : Felt)
    + mulBase (alphas 2) addr_nxt
  header + build_value alphas 8 16 (mt.decoder_hasher_state row)
    + mulBase (alphas 5) op_code_felt

/-- `build_syscall_block_request`. -/
def build_syscall_block_request (k : ExtConsts) (mt : MainTrace)
    (op_code_felt : Felt) (alphas : ℕ → E) (row : ℕ) : E :=
  let factor1 := build_control_block_request k mt op_code_felt alphas row
  let factor2 := alphas 0 + mulBase (alphas 1) k.KERNEL_PROC_LABEL
    + mulBase (alphas 2) (mt.decoder_hasher_state row 0)
    + mulBase (alphas 3) (mt.decoder_hasher_state row 1)
    + mulBase (alphas 4) (mt.decoder_hasher_state row 2)
    + mulBase (alphas 5) (mt.decoder_hasher_state row 3)
  factor1 * factor2

/-- `build_span_block_request`. -/
def build_span_block_request (k : ExtConsts) (mt : MainTrace)
    (alphas : ℕ → E) (row : ℕ) : E :=
  let op_label := k.LINEAR_HASH_LABEL
  let addr_nxt := mt.addr (row + 1)
  let transition_label : ℕ :=
    if addr_to_row_index addr_nxt % HASH_CYCLE_LEN = 0 then op_label + 16 else op_label + 32
  let header := alphas 0 + mulBase (alphas 1) ((transition_label : ℕ) : Felt)
    + mulBase (alphas 2) addr_nxt
  header + build_value alphas 8 16 (mt.decoder_hasher_state row)

/-- `build_respan_block_request` (reads the previous two rows' hasher states
and takes their difference, since a respan continues an absorption). -/
def build_respan_block_request (k : ExtConsts) (mt : MainTrace)
    (alphas : ℕ → E) (row : ℕ) : E :=
  let op_label := k.LINEAR_HASH_LABEL
  let addr_nxt := mt.addr (row + 1)
  let transition_label : ℕ :=
    if addr_to_row_index (addr_nxt - 1) % HASH_CYCLE_LEN = 0 then op_label + 16
    else op_label + 32
  let header := alphas 0 + mulBase (alphas 1) ((transition_label : ℕ) : Felt)
    + mulBase (alphas 2) (addr_nxt - 1) + mulBase (alphas 3) 0
  header
    + build_value alphas 8 16 (fun i => mt.chiplet_hasher_state (row - 1) (CAPACITY_LEN + i))
    - build_value alphas 8 16 (fun i => mt.chiplet_hasher_state (row - 2) (CAPACITY_LEN + i))

/-- `build_end_block_request`. -/
def build_end_block_request (k : ExtConsts) (mt : MainTrace)
    (alphas : ℕ → E) (row : ℕ) : E :=
  let op_label := k.RETURN_HASH_LABEL
  let addr := mt.addr row + ((NUM_ROUNDS : ℕ) : Felt)
  let transition_label : ℕ :=
    if addr_to_row_index addr % HASH_CYCLE_LEN = 0 then op_label + 16 else op_label + 32
  let header := alphas 0 + mulBase (alphas 1) ((transition_label : ℕ) : Felt)
    + mulBase (alphas 2) addr
  header + build_value alphas 8 12 (mt.decoder_hasher_state row)

/-- `build_bitwise_request`: request for a bitwise `AND`/`XOR` computation,
over the operands at stack positions 1 and 0 and the result at stack
position 0 of the next row. -/
def build_bitwise_request (mt : MainTrace) (is_xor : Felt)
    (alphas : ℕ → E) (row : ℕ) : E :=
  let op_label := get_op_label 1 0 is_xor 0
  let a := mt.stack_element 1 row
  let b := mt.stack_element 0 row
  let z := mt.stack_element 0 (row + 1)
  alphas 0 + mulBase (alphas 1) op_label + mulBase (alphas 2) a
    + mulBase (alphas 3) b + mulBase (alphas 4) z

/-- `build_mem_request_element` (`MLOAD` / `MSTORE`). -/
def build_mem_request_element (mt : MainTrace) (op_label : ℕ)
    (alphas : ℕ → E) (row : ℕ) : E :=
  let word : Word4 :=
    ⟨mt.stack_element 0 (row + 1), mt.helper_register 2 row,
     mt.helper_register 1 row, mt.helper_register 0 row⟩
  let addr := mt.stack_element 0 row
  compute_memory_request mt op_label alphas row addr word

/-- `build_mem_request_word` (`MLOADW` / `MSTOREW`). -/
def build_mem_request_word (mt : MainTrace) (op_label : ℕ)
    (alphas : ℕ → E) (row : ℕ) : E :=
  let word : Word4 :=
    ⟨mt.stack_element 3 (row + 1), mt.stack_element 2 (row + 1),
     mt.stack_element 1 (row + 1), mt.stack_element 0 (row + 1)⟩
  let addr := mt.stack_element 0 row
  compute_memory_request mt op_label alphas row addr word

/-- `build_mstream_request`: two memory-read requests at consecutive
addresses, multiplied together. -/
def build_mstream_request (k : ExtConsts) (mt : MainTrace)
    (alphas : ℕ → E) (row : ℕ) : E :=
  let word1 : Word4 :=
    ⟨mt.stack_element 7 (row + 1), mt.stack_element 6 (row + 1),
     mt.stack_element 5 (row + 1), mt.stack_element 4 (row + 1)⟩
  let word2 : Word4 :=
    ⟨mt.stack_element 3 (row + 1), mt.stack_element 2 (row + 1),
     mt.stack_element 1 (row + 1), mt.stack_element 0 (row + 1)⟩
  let addr := mt.stack_element 12 row
  let op_label := k.MEMORY_READ_LABEL
  compute_memory_request mt op_label alphas row addr word1
    * compute_memory_request mt op_label alphas row (addr + 1) word2

/-- `build_rcomb_base_request`: two memory-read requests from helper
registers. -/
def build_rcomb_base_request (k : ExtConsts) (mt : MainTrace)
    (alphas : ℕ → E) (row : ℕ) : E :=
  let tz0 := mt.helper_register 0 row
  let tz1 := mt.helper_register 1 row
  let tzg0 := mt.helper_register 2 row
  let tzg1 := mt.helper_register 3 row
  let a0 := mt.helper_register 4 row
  let a1 := mt.helper_register 5 row
  let z_ptr := mt.stack_element 13 row
  let a_ptr := mt.stack_element 14 row
  let op_label := k.MEMORY_READ_LABEL
  compute_memory_request mt op_label alphas row z_ptr ⟨tz0, tz1, tzg0, tzg1⟩
    * compute_memory_request mt op_label alphas row a_ptr ⟨a0, a1, 0, 0⟩

/-- `build_hperm_request`: paired permutation input/output requests to the
hash chiplet. -/
def build_hperm_request (k : ExtConsts) (mt : MainTrace)
    (alphas : ℕ → E) (row : ℕ) : E :=
  let helper_0 := mt.helper_register 0 row
  let op_label_in : ℕ :=
    if addr_to_hash_cycle helper_0 = 0 then k.LINEAR_HASH_LABEL + 16
    else k.LINEAR_HASH_LABEL + 32
  let sum_input : E := (List.range 12).foldl
    (fun acc i => acc + mulBase (alphas (15 - i)) (mt.stack_element i row)) 0
  let v_input := alphas 0 + mulBase (alphas 1) ((op_label_in : ℕ) : Felt)
    + mulBase (alphas 2) helper_0 + sum_input
  let op_label_out : ℕ :=
    if addr_to_hash_cycle (helper_0 + 7) = 0 then k.RETURN_STATE_LABEL + 16
    else k.RETURN_STATE_LABEL + 32
  let sum_output : E := (List.range 12).foldl
    (fun acc i => acc + mulBase (alphas (15 - i)) (mt.stack_element i (row + 1))) 0
  let v_output := alphas 0 + mulBase (alphas 1) ((op_label_out : ℕ) : Felt)
    + mulBase (alphas 2) (helper_0 + 7) + sum_output
  v_input * v_output

/-- `build_mpverify_request`: paired Merkle-verify requests to the hash
chiplet. -/
def build_mpverify_request (k : ExtConsts) (mt : MainTrace)
    (alphas : ℕ → E) (row : ℕ) : E :=
  let helper_0 := mt.helper_register 0 row
  let s4 := mt.stack_element 4 row
  let s5 := mt.stack_element 5 row
  let op_label_in : ℕ :=
    if addr_to_hash_cycle helper_0 = 0 then k.MP_VERIFY_LABEL + 16
    else k.MP_VERIFY_LABEL + 32
  let sum_input : E := (List.range 4).foldl
    (fun acc i => acc + mulBase (alphas (11 - i)) (mt.stack_element i row)) 0
  let v_input := alphas 0 + mulBase (alphas 1) ((op_label_in : ℕ) : Felt)
    + mulBase (alphas 2) helper_0 + mulBase (alphas 3) s5 + sum_input
  let op_label_out : ℕ :=
    if helper_0.val % 8 = 0 then k.RETURN_HASH_LABEL + 16
    else k.RETURN_HASH_LABEL + 32
  let sum_output : E := (List.range 4).foldl
    (fun acc i => acc + mulBase (alphas (11 - i)) (mt.stack_element (6 + i) row)) 0
  let v_output := alphas 0 + mulBase (alphas 1) ((op_label_out : ℕ) : Felt)
    + mulBase (alphas 2) (helper_0 + s4 * 8 - 1) + sum_output
  v_input * v_output

/-- `build_mrupdate_request`: the four Merkle-update requests to the hash
chiplet (old-root input/output, new-root input/output). -/
def build_mrupdate_request (k : ExtConsts) (mt : MainTrace)
    (alphas : ℕ → E) (row : ℕ) : E :=
  let helper_0 := mt.helper_register 0 row
  let s4 := mt.stack_element 4 row
  let s5 := mt.stack_element 5 row
  let op_label_old_in : ℕ :=
    if addr_to_hash_cycle helper_0 = 0 then k.MR_UPDATE_OLD_LABEL + 16
    else k.MR_UPDATE_OLD_LABEL + 32
  let sum_input_old : E := (List.range 4).foldl
    (fun acc i => acc + mulBase (alphas (11 - i)) (mt.stack_element i row)) 0
  let v_input_old := alphas 0 + mulBase (alphas 1) ((op_label_old_in : ℕ) : Felt)
    + mulBase (alphas 2) helper_0 + mulBase (alphas 3) s5 + sum_input_old
  let op_label_old_out : ℕ :=
    if addr_to_hash_cycle (helper_0 + s4 * 8 - 1) = 0 then k.RETURN_HASH_LABEL + 16
    else k.RETURN_HASH_LABEL + 32
  let sum_output_old : E := (List.range 4).foldl
    (fun acc i => acc + mulBase (alphas (11 - i)) (mt.stack_element (6 + i) row)) 0
  let v_output_old := alphas 0 + mulBase (alphas 1) ((op_label_old_out : ℕ) : Felt)
    + mulBase (alphas 2) (helper_0 + s4 * 8 - 1) + sum_output_old
  let op_label_new_in : ℕ :=
    if addr_to_hash_cycle (helper_0 + s4 * 8) = 0 then k.MR_UPDATE_NEW_LABEL + 16
    else k.MR_UPDATE_NEW_LABEL + 32
  let sum_input_new : E := (List.range 4).foldl
    (fun acc i => acc + mulBase (alphas (11 - i)) (mt.stack_element (10 + i) row)) 0
  let v_input_new := alphas 0 + mulBase (alphas 1) ((op_label_new_in : ℕ) : Felt)
    + mulBase (alphas 2) (helper_0 + s4 * 8) + mulBase (alphas 3) s5 + sum_input_new
  let op_label_new_out : ℕ :=
    if addr_to_hash_cycle (helper_0 + s4 * 16 - 1) = 0 then k.RETURN_HASH_LABEL + 16
    else k.RETURN_HASH_LABEL + 32
  let sum_output_new : E := (List.range 4).foldl
    (fun acc i => acc + mulBase (alphas (11 - i)) (mt.stack_element i (row + 1))) 0
  let v_output_new := alphas 0 + mulBase (alphas 1) ((op_label_new_out : ℕ) : Felt)
    + mulBase (alphas 2) (helper_0 + s4 * 16 - 1) + sum_output_new
  v_input_new * v_input_old * v_output_new * v_output_old

/-- `BusColumnBuilder::get_requests_at`: dispatch on the opcode of the row
(the low 8 bits of the opcode column), mirroring the `match` in the source;
any other opcode contributes the multiplicative identity. -/
def bus_get_requests_at (k : ExtConsts) (mt : MainTrace)
    (alphas : ℕ → E) (row : ℕ) : E :=
  let op_code_felt := mt.get_op_code row
  let op_code : ℕ := op_code_felt.val % 256
  if op_code = k.opJoin ∨ op_code = k.opSplit ∨ op_code = k.opLoop ∨
      op_code = k.opDyn ∨ op_code = k.opCall then
    build_control_block_request k mt op_code_felt alphas row
  else if op_code = k.opSyscall then
    build_syscall_block_request k mt op_code_felt alphas row
  else if op_code = k.opSpan then build_span_block_request k mt alphas row
  else if op_code = k.opRespan then build_respan_block_request k mt alphas row
  else if op_code = k.opEnd then build_end_block_request k mt alphas row
  else if op_code = k.opAnd then build_bitwise_request mt 0 alphas row
  else if op_code = k.opXor then build_bitwise_request mt 1 alphas row
  else if op_code = k.opMloadw then
    build_mem_request_word mt k.MEMORY_READ_LABEL alphas row
  else if op_code = k.opMstorew then
    build_mem_request_word mt k.MEMORY_WRITE_LABEL alphas row
  else if op_code = k.opMload then
    build_mem_request_element mt k.MEMORY_READ_LABEL alphas row
  else if op_code = k.opMstore then
    build_mem_request_element mt k.MEMORY_WRITE_LABEL alphas row
  else if op_code = k.opMstream then build_mstream_request k mt alphas row
  else if op_code = k.opRcombbase then build_rcomb_base_request k mt alphas row
  else if op_code = k.opHperm then build_hperm_request k mt alphas row
  else if op_code = k.opMpverify then build_mpverify_request k mt alphas row
  else if op_code = k.opMrupdate then build_mrupdate_request k mt alphas row
  else 1

/-!
## Bus argument: responses
-/

/-- `build_hasher_chiplet_responses`: the response of the hash chiplet at a
row, mirroring the sequential overwrite of `multiplicand` across the
selector cases of the source (cycle-start cases `f_bp` and `f_mp/f_mv/f_mu`,
cycle-end cases `f_hout`, `f_sout`, `f_abp`). -/
def build_hasher_chiplet_responses (mt : MainTrace) (row : ℕ)
    (alphas : ℕ → E) (s1 s2 s3 : Felt) : E :=
  let s0 := mt.chiplet_selector_0 row
  let op_label := get_op_label s0 s1 s2 s3
  let state := mt.chiplet_hasher_state row
  let node_index := mt.chiplet_node_index row
  let header16 : E := alphas 0 + mulBase (alphas 1) (op_label + 16)
    + mulBase (alphas 2) (((row + 1 : ℕ)) : Felt) + mulBase (alphas 3) node_index
  let header32 : E := alphas 0 + mulBase (alphas 1) (op_label + 32)
    + mulBase (alphas 2) (((row + 1 : ℕ)) : Felt) + mulBase (alphas 3) node_index
  let m0 : E := 1
  let m1 : E := if row % HASH_CYCLE_LEN = 0 ∧ s1 = 1 ∧ s2 = 0 ∧ s3 = 0 then
      header16 + build_value alphas 4 16 state
    else m0
  let m2 : E := if row % HASH_CYCLE_LEN = 0 ∧ s1 = 1 ∧ ¬(s2 = 0 ∧ s3 = 0) then
      let bit : ℕ := node_index.val % 2
      let left_word : E := build_value alphas 8 12 (fun i => state (DIGEST_START + i))
      let right_word : E := build_value alphas 8 12 (fun i => state (DIGEST_END + i))
      header16 + ((1 - bit : ℕ) : E) * left_word + ((bit : ℕ) : E) * right_word
    else m1
  let m3 : E :=
    if row % HASH_CYCLE_LEN = HASH_CYCLE_LEN - 1 ∧ s1 = 0 ∧ s2 = 0 ∧ s3 = 0 then
      header32 + build_value alphas 8 12 (fun i => state (DIGEST_START + i))
    else m2
  let m4 : E :=
    if row % HASH_CYCLE_LEN = HASH_CYCLE_LEN - 1 ∧ s1 = 0 ∧ s2 = 0 ∧ s3 = 1 then
      header32 + build_value alphas 4 16 state
    else m3
  let m5 : E :=
    if row % HASH_CYCLE_LEN = HASH_CYCLE_LEN - 1 ∧ s1 = 1 ∧ s2 = 0 ∧ s3 = 0 then
      header32
        + build_value alphas 8 16 (fun i => mt.chiplet_hasher_state (row + 1) (CAPACITY_LEN + i))
        - build_value alphas 8 16 (fun i => state (CAPACITY_LEN + i))
    else m4
  m5

/-- `build_bitwise_chiplet_responses`: emitted only at the last row of each
8-row bitwise cycle. -/
def build_bitwise_chiplet_responses (mt : MainTrace) (row : ℕ)
    (is_xor : Felt) (alphas : ℕ → E) : E :=
  if row % BITWISE_OP_CYCLE_LEN = BITWISE_OP_CYCLE_LEN - 1 then
    let op_label := get_op_label 1 0 is_xor 0
    alphas 0 + mulBase (alphas 1) op_label
      + mulBase (alphas 2) (mt.chiplet_bitwise_a row)
      + mulBase (alphas 3) (mt.chiplet_bitwise_b row)
      + mulBase (alphas 4) (mt.chiplet_bitwise_z row)
  else 1

/-- `build_memory_chiplet_responses`. -/
def build_memory_chiplet_responses (mt : MainTrace) (row : ℕ)
    (is_read : Felt) (alphas : ℕ → E) : E :=
  let op_label := get_op_label 1 1 0 is_read
  alphas 0 + mulBase (alphas 1) op_label
    + mulBase (alphas 2) (mt.chiplet_memory_ctx row)
    + mulBase (alphas 3) (mt.chiplet_memory_addr row)
    + mulBase (alphas 4) (mt.chiplet_memory_clk row)
    + mulBase (alphas 5) (mt.chiplet_memory_value_0 row)
    + mulBase (alphas 6) (mt.chiplet_memory_value_1 row)
    + mulBase (alphas 7) (mt.chiplet_memory_value_2 row)
    + mulBase (alphas 8) (mt.chiplet_memory_value_3 row)

/-- `build_kernel_chiplet_responses`: gated by the per-row kernel-chiplet
selector (neutral element when inactive). -/
def build_kernel_chiplet_responses (k : ExtConsts) (mt : MainTrace) (row : ℕ)
    (kernel_chiplet_selector : Felt) (alphas : ℕ → E) : E :=
  let v : E := alphas 0 + mulBase (alphas 1) k.KERNEL_PROC_LABEL
    + mulBase (alphas 2) (mt.chiplet_kernel_root_0 row)
    + mulBase (alphas 3) (mt.chiplet_kernel_root_1 row)
    + mulBase (alphas 4) (mt.chiplet_kernel_root_2 row)
    + mulBase (alphas 5) (mt.chiplet_kernel_root_3 row)
  mulBase v kernel_chiplet_selector + algebraMap Felt E (1 - kernel_chiplet_selector)

/-- `build_kernel_procedure_table_responses`: the once-per-procedure
inclusion term, active at address-change boundaries. -/
def build_kernel_procedure_table_responses (mt : MainTrace) (row : ℕ)
    (alphas : ℕ → E) : E :=
  let addr := mt.chiplet_kernel_addr row
  let addr_nxt := mt.chiplet_kernel_addr (row + 1)
  let addr_delta := addr_nxt - addr
  let v : E := alphas 0 + mulBase (alphas 1) addr
    + mulBase (alphas 2) (mt.chiplet_kernel_root_0 row)
    + mulBase (alphas 3) (mt.chiplet_kernel_root_1 row)
    + mulBase (alphas 4) (mt.chiplet_kernel_root_2 row)
    + mulBase (alphas 5) (mt.chiplet_kernel_root_3 row)
  mulBase v addr_delta + algebraMap Felt E (1 - addr_delta)

/-- `BusColumnBuilder::get_responses_at`: dispatch on the five chiplet
selector bits of the row. -/
def bus_get_responses_at (k : ExtConsts) (mt : MainTrace)
    (alphas : ℕ → E) (row : ℕ) : E :=
  let selector0 := mt.chiplet_selector_0 row
  let selector1 := mt.chiplet_selector_1 row
  let selector2 := mt.chiplet_selector_2 row
  let selector3 := mt.chiplet_selector_3 row
  let selector4 := mt.chiplet_selector_4 row
  if selector0 = 0 then
    build_hasher_chiplet_responses mt row alphas selector1 selector2 selector3
  else if selector1 = 0 then
    build_bitwise_chiplet_responses mt row selector2 alphas
  else if selector2 = 0 then
    build_memory_chiplet_responses mt row selector3 alphas
  else if selector3 = 0 then
    build_kernel_chiplet_responses k mt row selector4 alphas
      * build_kernel_procedure_table_responses mt row alphas
  else 1

end AuxBuilders

section AuxColumn

variable {E : Type} [Field E] [Algebra Felt E]

/-- Modelled from the spec: `AuxColumnBuilder::build_aux_column` (the trait
default lives outside the verified sources).  The running-product column is
defined by `b[i] * request(i) = b[i-1] * response(i)` with `b[-1] = 1`, i.e.
`b[i] = b[i-1] * response(i) / request(i)`. -/
def buildAuxColumn (req resp : ℕ → E) : ℕ → E
  | 0 => resp 0 / req 0
  | i + 1 => buildAuxColumn req resp i * resp (i + 1) / req (i + 1)

/-- `AuxTraceBuilder::build_aux_columns`: the two auxiliary columns
`[t_chip, b_chip]` (each modelled as a row-indexed function). -/
def build_aux_columns (k : ExtConsts) (mt : MainTrace)
    (alphas : ℕ → E) : List (ℕ → E) :=
  [buildAuxColumn (vtable_get_requests_at mt alphas) (vtable_get_responses_at mt alphas),
   buildAuxColumn (bus_get_requests_at k mt alphas) (bus_get_responses_at k mt alphas)]

end AuxColumn

/-!
## The Chiplets aggregator (`chiplets/mod.rs`)

The four sub-chiplets are external collaborators: each exposes `trace_len()`
and a fill routine writing its recorded history into the fragment (a list of
column windows) it is handed.  We model a sub-chiplet by its trace length and
its recorded content, indexed by fragment-column and fragment-row.
-/

structure Hasher where
  trace_len : ℕ
  content : ℕ → ℕ → Felt

structure Bitwise where
  trace_len : ℕ
  content : ℕ → ℕ → Felt

structure Memory where
  trace_len : ℕ
  content : ℕ → ℕ → Felt

structure KernelRom where
  trace_len : ℕ
  content : ℕ → ℕ → Felt

structure Chiplets where
  clk : ℕ
  hasher : Hasher
  bitwise : Bitwise
  memory : Memory
  kernel_rom : KernelRom

/-- `Chiplets::trace_len`: total trace length, including the 1 mandatory
padding row. -/
def Chiplets.trace_len (c : Chiplets) : ℕ :=
  c.hasher.trace_len + c.bitwise.trace_len + c.memory.trace_len
    + c.kernel_rom.trace_len + 1

/-- `Chiplets::bitwise_start`: first row of the bitwise segment. -/
def Chiplets.bitwise_start (c : Chiplets) : ℕ :=
  c.hasher.trace_len

/-- `Chiplets::memory_start`: first row of the memory segment. -/
def Chiplets.memory_start (c : Chiplets) : ℕ :=
  c.bitwise_start + c.bitwise.trace_len

/-- `Chiplets::kernel_rom_start`: first row of the kernel ROM segment. -/
def Chiplets.kernel_rom_start (c : Chiplets) : ℕ :=
  c.memory_start + c.memory.trace_len

/-- `Chiplets::padding_start`: first row of the padding segment. -/
def Chiplets.padding_start (c : Chiplets) : ℕ :=
  c.kernel_rom_start + c.kernel_rom.trace_len

/-- The composed chiplets table, as a (column, row)-indexed value function. -/
def Table : Type := ℕ → ℕ → Felt

/-- The zero-initialized table allocated by `into_trace`. -/
def zeroTable : Table := fun _ _ => 0

/-- `trace[col][start..].fill(ONE)`: set a selector column to one from `start`
on. -/
def fillFrom (t : Table) (col start : ℕ) : Table :=
  fun c r => if c = col ∧ start ≤ r then 1 else t c r

/-- Write one fragment window: rows `[start, start + len)` of physical column
`col` receive one column of the owning chiplet's recorded content. -/
def writeWindow (t : Table) (col start len : ℕ) (contentCol : ℕ → Felt) : Table :=
  fun c r => if c = col ∧ start ≤ r ∧ r < start + len then contentCol (r - start) else t c r

/-- Fill a chiplet's fragment: one window per physical column in `cols` (in
push order), all spanning rows `[start, start + len)`; `i` numbers the
fragment columns. -/
def writeWindows (start len : ℕ) (content : ℕ → ℕ → Felt) :
    ℕ → List ℕ → Table → Table
  | _, [], t => t
  | i, col :: rest, t =>
    writeWindows start len content (i + 1) rest (writeWindow t col start len (content i))

/-- The physical columns handed to the hasher fragment by the `match` in
`Chiplets::fill_trace` (columns 1-16), in push order. -/
def hasherColumns : List ℕ := [1, 2, 3, 4, 5, 6, 7, 8, 9, 10, 11, 12, 13, 14, 15, 16]

/-- The physical columns handed to the bitwise fragment (columns 2-14). -/
def bitwiseColumns : List ℕ := [2, 3, 4, 5, 6, 7, 8, 9, 10, 11, 12, 13, 14]

/-- The physical columns handed to the memory fragment (columns 3-17). -/
def memoryColumns : List ℕ := [3, 4, 5, 6, 7, 8, 9, 10, 11, 12, 13, 14, 15, 16, 17]

/-- The physical columns handed to the kernel ROM fragment (columns 4-9). -/
def kernelRomColumns : List ℕ := [4, 5, 6, 7, 8, 9]

/-- `Chiplets::fill_trace`: fill the four selector columns (`trace[0]` from
`bitwise_start`, `trace[1]` from `memory_start`, `trace[2]` from
`kernel_rom_start`, `trace[3]` from `padding_start`), then fill each
chiplet's fragment windows, in hasher → bitwise → memory → kernel-ROM
order.  Each chiplet's windows all span that chiplet's row segment. -/
def Chiplets.fill_trace (c : Chiplets) : Table :=
  writeWindows c.kernel_rom_start c.kernel_rom.trace_len c.kernel_rom.content 0 kernelRomColumns
    (writeWindows c.memory_start c.memory.trace_len c.memory.content 0 memoryColumns
      (writeWindows c.bitwise_start c.bitwise.trace_len c.bitwise.content 0 bitwiseColumns
        (writeWindows 0 c.hasher.trace_len c.hasher.content 0 hasherColumns
          (fillFrom (fillFrom (fillFrom (fillFrom zeroTable 0 c.bitwise_start)
            1 c.memory_start) 2 c.kernel_rom_start) 3 c.padding_start))))

/-- `Chiplets::into_trace`: assert the target length can accommodate the
chiplet trace plus the requested random rows (a violated assertion is a
panic, modelled as `none`), then materialize the `CHIPLETS_WIDTH`-column,
`trace_len`-row filled table. -/
def Chiplets.into_trace (c : Chiplets) (trace_len num_rand_rows : ℕ) :
    Option (List (List Felt)) :=
  if c.trace_len + num_rand_rows ≤ trace_len then
    some ((List.range CHIPLETS_WIDTH).map fun col =>
      (List.range trace_len).map fun row => c.fill_trace col row)
  else none

/-!
## Hash-block checks (`Chiplets::hash_control_block` / `hash_span_block`)

The hasher itself is external; its result is a pair of the start address and
the computed digest.  The aggregator returns the start address and asserts
the computed digest equals the expected block hash; the assertion failure is
a fatal abort (`none`), not an error value — the return type has no error
channel. -/

/-- `Chiplets::hash_control_block`, given the hasher's `(addr, result)`. -/
def hash_control_block (hasher_result : Felt × Word4) (expected_hash : Word4) :
    Option Felt :=
  if expected_hash = hasher_result.2 then some hasher_result.1 else none

/-- `Chiplets::hash_span_block`, given the hasher's `(addr, result)`. -/
def hash_span_block (hasher_result : Felt × Word4) (expected_hash : Word4) :
    Option Felt :=
  if expected_hash = hasher_result.2 then some hasher_result.1 else none

/-!
## Concrete fixtures used by witnesses and counterexamples
-/

/-- A main trace whose accessors are all zero / false. -/
def mtTriv : MainTrace where
  get_op_code := fun _ => 0
  addr := fun _ => 0
  ctx := fun _ => 0
  clk := fun _ => 0
  stack_element := fun _ _ => 0
  helper_register := fun _ _ => 0
  decoder_hasher_state := fun _ _ => 0
  chiplet_selector_0 := fun _ => 0
  chiplet_selector_1 := fun _ => 0
  chiplet_selector_2 := fun _ => 0
  chiplet_selector_3 := fun _ => 0
  chiplet_selector_4 := fun _ => 0
  chiplet_hasher_state := fun _ _ => 0
  chiplet_node_index := fun _ => 0
  chiplet_bitwise_a := fun _ => 0
  chiplet_bitwise_b := fun _ => 0
  chiplet_bitwise_z := fun _ => 0
  chiplet_memory_ctx := fun _ => 0
  chiplet_memory_clk := fun _ => 0
  chiplet_memory_addr := fun _ => 0
  chiplet_memory_value_0 := fun _ => 0
  chiplet_memory_value_1 := fun _ => 0
  chiplet_memory_value_2 := fun _ => 0
  chiplet_memory_value_3 := fun _ => 0
  chiplet_kernel_addr := fun _ => 0
  chiplet_kernel_root_0 := fun _ => 0
  chiplet_kernel_root_1 := fun _ => 0
  chiplet_kernel_root_2 := fun _ => 0
  chiplet_kernel_root_3 := fun _ => 0
  f_mv := fun _ => false
  f_mva := fun _ => false
  f_mu := fun _ => false
  f_mua := fun _ => false
  is_kernel_row := fun _ => false
  is_addr_change := fun _ => false

/-- A main trace carrying one matched bitwise event: operands `a = 0b1010`,
`b = 0b0110`, result `z = 0b0010` on the stack at row 0 and in the bitwise
chiplet columns. -/
def mtBitwise : MainTrace :=
  { mtTriv with
    stack_element := fun idx row =>
      if idx = 1 ∧ row = 0 then 10
      else if idx = 0 ∧ row = 0 then 6
      else if idx = 0 ∧ row = 1 then 2
      else 0
    chiplet_bitwise_a := fun _ => 10
    chiplet_bitwise_b := fun _ => 6
    chiplet_bitwise_z := fun _ => 2 }

/-- A main trace with an active sibling deposit (`f_mv`) and withdrawal
(`f_mu`), node index 5 and hasher state `i ↦ i`. -/
def mtSib : MainTrace :=
  { mtTriv with
    f_mv := fun _ => true
    f_mu := fun _ => true
    chiplet_node_index := fun _ => 5
    chiplet_hasher_state := fun _ i => (i : Felt) }

/-- Concrete protocol constants for witnesses (their numeric values are
irrelevant to the proved statements: only that opcode `0` matches none). -/
def kW : ExtConsts where
  opJoin := 65
  opSplit := 66
  opLoop := 67
  opDyn := 68
  opCall := 69
  opSyscall := 70
  opSpan := 71
  opRespan := 72
  opEnd := 73
  opAnd := 74
  opXor := 75
  opMloadw := 76
  opMstorew := 77
  opMload := 78
  opMstore := 79
  opMstream := 80
  opRcombbase := 81
  opHperm := 82
  opMpverify := 83
  opMrupdate := 84
  LINEAR_HASH_LABEL := 3
  RETURN_HASH_LABEL := 1
  RETURN_STATE_LABEL := 9
  MP_VERIFY_LABEL := 11
  MR_UPDATE_NEW_LABEL := 15
  MR_UPDATE_OLD_LABEL := 7
  KERNEL_PROC_LABEL := 8
  MEMORY_READ_LABEL := 12
  MEMORY_WRITE_LABEL := 4

/-- A `Chiplets` state in which every sub-chiplet has an empty trace (as
after `Chiplets::new` with an empty kernel and no recorded operations). -/
def cZero : Chiplets :=
  ⟨0, ⟨0, fun _ _ => 0⟩, ⟨0, fun _ _ => 0⟩, ⟨0, fun _ _ => 0⟩, ⟨0, fun _ _ => 0⟩⟩

/-- A `Chiplets` state with one row per sub-chiplet, all recorded content 7. -/
def cOnes : Chiplets :=
  ⟨0, ⟨1, fun _ _ => 7⟩, ⟨1, fun _ _ => 7⟩, ⟨1, fun _ _ => 7⟩, ⟨1, fun _ _ => 7⟩⟩

/-- A `Chiplets` state whose hasher has one row of recorded content 1 (the
hasher writes its own internal selector bits into columns 1-3, so they can
be nonzero). -/
def cHasher1 : Chiplets :=
  ⟨0, ⟨1, fun _ _ => 1⟩, ⟨0, fun _ _ => 0⟩, ⟨0, fun _ _ => 0⟩, ⟨0, fun _ _ => 0⟩⟩

/-!
## Evaluation lemmas for the trace composer
-/

lemma powModAux_eq :
    ∀ (fuel n b e : ℕ), e < 2 ^ fuel → powModAux fuel n b e = b ^ e % n := by
  intro fuel
  induction fuel with
  | zero =>
    intro n b e he
    have he0 : e = 0 := by omega
    subst he0
    simp [powModAux]
  | succ fuel ih =>
    intro n b e he
    by_cases he0 : e = 0
    · subst he0; simp [powModAux]
    · have hdiv : e / 2 < 2 ^ fuel := by
        rw [pow_succ] at he
        omega
      have hrec : powModAux fuel n (b * b % n) (e / 2) = (b * b) ^ (e / 2) % n := by
        rw [ih n (b * b % n) (e / 2) hdiv, ← Nat.pow_mod]
      rcases Nat.mod_two_eq_zero_or_one e with hpar | hpar
      · have hbe : b ^ e = (b * b) ^ (e / 2) := by
          rw [← pow_two, ← pow_mul]
          congr 1
          omega
        have hne : ¬ e % 2 = 1 := by omega
        simp only [powModAux, if_neg he0, if_neg hne]
        rw [hrec, hbe]
      · have hbe : b ^ e = (b * b) ^ (e / 2) * b := by
          rw [← pow_two, ← pow_mul, ← pow_succ]
          congr 1
          omega
        simp only [powModAux, if_neg he0, if_pos hpar]
        rw [hrec, hbe, Nat.mod_mul_mod]

lemma zmod_pow_eq (n b e : ℕ) (he : e < 2 ^ 64) :
    ((b : ZMod n)) ^ e = ((powModAux 64 n b e : ℕ) : ZMod n) := by
  rw [powModAux_eq 64 n b e he, ZMod.natCast_mod, Nat.cast_pow]

lemma P_sub_one_factors : P - 1 = 2 ^ 32 * (3 * (5 * (17 * (257 * 65537)))) := by decide

set_option maxRecDepth 40000

/-- `P = 2^64 - 2^32 + 1` is prime, by the Lucas certificate with base `7`
(a generator of the multiplicative group of the Goldilocks field). -/
theorem P_prime : Nat.Prime P := by
  apply lucas_primality P (7 : ZMod P)
  · rw [← Nat.cast_ofNat (R := ZMod P) (n := 7),
      zmod_pow_eq P 7 (P - 1) (by decide)]
    have h1 : powModAux 64 P 7 (P - 1) = 1 := by decide
    rw [h1, Nat.cast_one]
  · intro q hq hdvd
    rw [P_sub_one_factors] at hdvd
    have hq2 : q = 2 ∨ q = 3 ∨ q = 5 ∨ q = 17 ∨ q = 257 ∨ q = 65537 := by
      rcases (Nat.Prime.dvd_mul hq).mp hdvd with h | h
      · exact Or.inl ((Nat.prime_dvd_prime_iff_eq hq Nat.prime_two).mp
          (hq.dvd_of_dvd_pow h))
      rcases (Nat.Prime.dvd_mul hq).mp h with h | h
      · exact Or.inr (Or.inl ((Nat.prime_dvd_prime_iff_eq hq (by norm_num)).mp h))
      rcases (Nat.Prime.dvd_mul hq).mp h with h | h
      · exact Or.inr (Or.inr (Or.inl
          ((Nat.prime_dvd_prime_iff_eq hq (by norm_num)).mp h)))
      rcases (Nat.Prime.dvd_mul hq).mp h with h | h
      · exact Or.inr (Or.inr (Or.inr (Or.inl
          ((Nat.prime_dvd_prime_iff_eq hq (by norm_num)).mp h))))
      rcases (Nat.Prime.dvd_mul hq).mp h with h | h
      · exact Or.inr (Or.inr (Or.inr (Or.inr (Or.inl
          ((Nat.prime_dvd_prime_iff_eq hq (by norm_num)).mp h)))))
      · exact Or.inr (Or.inr (Or.inr (Or.inr (Or.inr
          ((Nat.prime_dvd_prime_iff_eq hq (by norm_num)).mp h)))))
    have hcast : ∀ c : ℕ, c < P → c ≠ 1 → ((c : ℕ) : ZMod P) ≠ 1 := by
      intro c hcP hc1 hEq
      have hv := congrArg ZMod.val hEq
      have hP1 : 1 < P := by norm_num [P]
      haveI : Fact (1 < P) := ⟨hP1⟩
      rw [ZMod.val_cast_of_lt hcP, ZMod.val_one P] at hv
      exact hc1 hv
    have hbase : ∀ e : ℕ, e < 2 ^ 64 → ∀ c : ℕ, powModAux 64 P 7 e = c →
        c < P → c ≠ 1 → (7 : ZMod P) ^ e ≠ 1 := by
      intro e he c hcomp hcP hc1
      rw [← Nat.cast_ofNat (R := ZMod P) (n := 7), zmod_pow_eq P 7 e he, hcomp]
      exact hcast c hcP hc1
    rcases hq2 with rfl | rfl | rfl | rfl | rfl | rfl
    · exact hbase _ (by decide) 18446744069414584320 (by decide) (by decide) (by decide)
    · exact hbase _ (by decide) 18446744065119617025 (by decide) (by decide) (by decide)
    · exact hbase _ (by decide) 1373043270956696022 (by decide) (by decide) (by decide)
    · exact hbase _ (by decide) 16301593560560007290 (by decide) (by decide) (by decide)
    · exact hbase _ (by decide) 995085315851368103 (by decide) (by decide) (by decide)
    · exact hbase _ (by decide) 8478886009461009681 (by decide) (by decide) (by decide)

theorem P_prime_fact : Fact (Nat.Prime P) := ⟨P_prime⟩

attribute [instance] P_prime_fact

section GateLemmas

variable {E : Type} [CommRing E] [Algebra Felt E]

lemma add_sibling_eq_of_gate (mt : MainTrace) (alphas : ℕ → E) (row : ℕ)
    (h : mt.f_mv row = true ∨ (row ≠ 0 ∧ mt.f_mva (row - 1) = true)) :
    chiplets_vtable_add_sibling mt alphas row =
      sibValue alphas (vtableAddIndex mt row) (mt.chiplet_hasher_state row) := by
  unfold chiplets_vtable_add_sibling vtableAddIndex sibValue
  have hgate : (mt.f_mv row || (if row = 0 then false else mt.f_mva (row - 1))) = true := by
    rcases h with h | ⟨h0, h1⟩
    · simp [h]
    · simp [if_neg h0, h1]
  rw [if_pos hgate]

lemma remove_sibling_eq_of_gate (mt : MainTrace) (alphas : ℕ → E) (row : ℕ)
    (h : mt.f_mu row = true ∨ (row ≠ 0 ∧ mt.f_mua (row - 1) = true)) :
    chiplets_vtable_remove_sibling mt alphas row =
      sibValue alphas (vtableRemoveIndex mt row) (mt.chiplet_hasher_state row) := by
  unfold chiplets_vtable_remove_sibling vtableRemoveIndex sibValue
  have hgate : (mt.f_mu row || (if row = 0 then false else mt.f_mua (row - 1))) = true := by
    rcases h with h | ⟨h0, h1⟩
    · simp [h]
    · simp [if_neg h0, h1]
  rw [if_pos hgate]

end GateLemmas

lemma writeWindow_ne (t : Table) (col start len : ℕ) (f : ℕ → Felt) (c r : ℕ)
    (h : ¬(c = col ∧ start ≤ r ∧ r < start + len)) :
    writeWindow t col start len f c r = t c r := by
  simp only [writeWindow, if_neg h]

lemma writeWindows_notin (start len : ℕ) (content : ℕ → ℕ → Felt) :
    ∀ (cols : List ℕ) (i : ℕ) (t : Table) (c r : ℕ), c ∉ cols →
      writeWindows start len content i cols t c r = t c r := by
  intro cols
  induction cols with
  | nil => intro i t c r _; rfl
  | cons col rest ih =>
    intro i t c r hmem
    have hc : c ≠ col := fun h => hmem (h ▸ List.mem_cons_self col rest)
    have hrest : c ∉ rest := fun h => hmem (List.mem_cons_of_mem col h)
    show writeWindows start len content (i + 1) rest
      (writeWindow t col start len (content i)) c r = t c r
    rw [ih (i + 1) _ c r hrest, writeWindow_ne]
    intro hand
    exact hc hand.1

lemma writeWindows_out (start len : ℕ) (content : ℕ → ℕ → Felt) :
    ∀ (cols : List ℕ) (i : ℕ) (t : Table) (c r : ℕ),
      (r < start ∨ start + len ≤ r) →
      writeWindows start len content i cols t c r = t c r := by
  intro cols
  induction cols with
  | nil => intro i t c r _; rfl
  | cons col rest ih =>
    intro i t c r hr
    show writeWindows start len content (i + 1) rest
      (writeWindow t col start len (content i)) c r = t c r
    rw [ih (i + 1) _ c r hr, writeWindow_ne]
    intro hand
    rcases hr with hr | hr
    · exact absurd hand.2.1 (by omega)
    · exact absurd hand.2.2 (by omega)

lemma writeWindows_skip (start len : ℕ) (content : ℕ → ℕ → Felt)
    (cols : List ℕ) (i : ℕ) (t : Table) (c r : ℕ)
    (h : c ∉ cols ∨ r < start ∨ start + len ≤ r) :
    writeWindows start len content i cols t c r = t c r := by
  rcases h with h | h
  · exact writeWindows_notin start len content cols i t c r h
  · exact writeWindows_out start len content cols i t c r h

/-- When none of the four fragment windows covers a cell, `fill_trace` yields
the selector-fill value of the cell. -/
lemma fill_trace_eq_selector (c : Chiplets) (col row : ℕ)
    (hh : col ∉ hasherColumns ∨ row < 0 ∨ 0 + c.hasher.trace_len ≤ row)
    (hb : col ∉ bitwiseColumns ∨ row < c.bitwise_start ∨
      c.bitwise_start + c.bitwise.trace_len ≤ row)
    (hm : col ∉ memoryColumns ∨ row < c.memory_start ∨
      c.memory_start + c.memory.trace_len ≤ row)
    (hk : col ∉ kernelRomColumns ∨ row < c.kernel_rom_start ∨
      c.kernel_rom_start + c.kernel_rom.trace_len ≤ row) :
    c.fill_trace col row =
      if col = 3 ∧ c.padding_start ≤ row then 1
      else if col = 2 ∧ c.kernel_rom_start ≤ row then 1
      else if col = 1 ∧ c.memory_start ≤ row then 1
      else if col = 0 ∧ c.bitwise_start ≤ row then 1
      else 0 := by
  unfold Chiplets.fill_trace
  rw [writeWindows_skip _ _ _ _ _ _ _ _ hk, writeWindows_skip _ _ _ _ _ _ _ _ hm,
    writeWindows_skip _ _ _ _ _ _ _ _ hb, writeWindows_skip _ _ _ _ _ _ _ _ hh]
  simp only [fillFrom, zeroTable]

/-!
## Claim theorems for the aggregator
-/

/-- Claim C2: for every `Chiplets` state, `trace_len()` equals the sum of the
four sub-chiplet trace lengths plus the one mandatory padding row. -/
theorem c2_trace_len (c : Chiplets) :
    c.trace_len = c.hasher.trace_len + c.bitwise.trace_len + c.memory.trace_len
      + c.kernel_rom.trace_len + 1 :=
  rfl

/-- Claim C7: `into_trace(trace_len, num_rand_rows)` aborts exactly when the
target length is smaller than the required chiplet length plus the random
rows; under the precondition it produces a table of `CHIPLETS_WIDTH` columns
of `trace_len` rows each. -/
theorem c7_into_trace (c : Chiplets) (T nr : ℕ) :
    (T < c.trace_len + nr → c.into_trace T nr = none) ∧
    (c.trace_len + nr ≤ T → ∃ tab, c.into_trace T nr = some tab ∧
      tab.length = CHIPLETS_WIDTH ∧ ∀ colL ∈ tab, colL.length = T) := by
  constructor
  · intro hlt
    unfold Chiplets.into_trace
    rw [if_neg (by omega)]
  · intro hle
    refine ⟨(List.range CHIPLETS_WIDTH).map fun col =>
      (List.range T).map fun row => c.fill_trace col row, ?_, ?_, ?_⟩
    · unfold Chiplets.into_trace
      rw [if_pos hle]
    · simp
    · intro colL hmem
      simp only [List.mem_map, List.mem_range] at hmem
      obtain ⟨colIdx, _, rfl⟩ := hmem
      simp

/-- Witness for C7 at concrete inputs: with all-empty chiplets the required
length is 1, so a target length of 0 aborts while a target length of 1
produces a table. -/
theorem c7_into_trace_witness :
    cZero.into_trace 0 0 = none ∧ (cZero.into_trace 1 0).isSome = true := by
  constructor
  · exact (c7_into_trace cZero 0 0).1 (by decide)
  · obtain ⟨tab, htab, -, -⟩ := (c7_into_trace cZero 1 0).2 (by decide)
    rw [htab]
    rfl

/-- Claim C8 counterexample: in the reachable `Chiplets` state with all-empty
sub-chiplet traces the addressing accessors are *not* strictly increasing
(`bitwise_start = memory_start = 0`), refuting the claim as stated. -/
theorem c8_counterexample : ¬ cZero.bitwise_start < cZero.memory_start := by
  decide

/-- Claim C8 (amended): each addressing accessor equals the cumulative sum of
the trace lengths of all prior segments; the accessors are monotonically
non-decreasing, and strictly increasing at each step whose intervening
sub-chiplet has a nonzero trace length. -/
theorem c8_addressing (c : Chiplets) :
    c.bitwise_start = c.hasher.trace_len ∧
    c.memory_start = c.bitwise_start + c.bitwise.trace_len ∧
    c.kernel_rom_start = c.memory_start + c.memory.trace_len ∧
    c.padding_start = c.kernel_rom_start + c.kernel_rom.trace_len ∧
    c.bitwise_start ≤ c.memory_start ∧
    c.memory_start ≤ c.kernel_rom_start ∧
    c.kernel_rom_start ≤ c.padding_start ∧
    (0 < c.bitwise.trace_len → c.bitwise_start < c.memory_start) ∧
    (0 < c.memory.trace_len → c.memory_start < c.kernel_rom_start) ∧
    (0 < c.kernel_rom.trace_len → c.kernel_rom_start < c.padding_start) := by
  have e2 : c.memory_start = c.bitwise_start + c.bitwise.trace_len := rfl
  have e3 : c.kernel_rom_start = c.memory_start + c.memory.trace_len := rfl
  have e4 : c.padding_start = c.kernel_rom_start + c.kernel_rom.trace_len := rfl
  refine ⟨rfl, rfl, rfl, rfl, ?_, ?_, ?_, ?_, ?_, ?_⟩ <;> omega

/-- Witness for C8 at a concrete state with nonzero sub-chiplet lengths: the
accessors are strictly increasing there. -/
theorem c8_addressing_witness :
    cOnes.bitwise_start < cOnes.memory_start ∧
    cOnes.memory_start < cOnes.kernel_rom_start ∧
    cOnes.kernel_rom_start < cOnes.padding_start :=
  ⟨(c8_addressing cOnes).2.2.2.2.2.2.2.1 (by decide),
   (c8_addressing cOnes).2.2.2.2.2.2.2.2.1 (by decide),
   (c8_addressing cOnes).2.2.2.2.2.2.2.2.2 (by decide)⟩

/-- Claim C9: `hash_control_block` / `hash_span_block` return the hasher's
start address, and a digest mismatch is a fatal abort (`none`) — the return
type carries no recoverable error. -/
theorem c9_hash_block_checks (hr : Felt × Word4) (expected : Word4) :
    (expected ≠ hr.2 →
      hash_control_block hr expected = none ∧ hash_span_block hr expected = none) ∧
    (expected = hr.2 →
      hash_control_block hr expected = some hr.1 ∧
      hash_span_block hr expected = some hr.1) := by
  constructor
  · intro hne
    unfold hash_control_block hash_span_block
    rw [if_neg hne]
    exact ⟨rfl, rfl⟩
  · intro heq
    unfold hash_control_block hash_span_block
    rw [if_pos heq]
    exact ⟨rfl, rfl⟩

/-- Witness for C9 at concrete inputs: a mismatching expected digest aborts,
a matching one returns the start address. -/
theorem c9_hash_block_checks_witness :
    hash_control_block (3, ⟨1, 2, 3, 4⟩) ⟨0, 0, 0, 0⟩ = none ∧
    hash_control_block (3, ⟨1, 2, 3, 4⟩) ⟨1, 2, 3, 4⟩ = some 3 :=
  ⟨((c9_hash_block_checks (3, ⟨1, 2, 3, 4⟩) ⟨0, 0, 0, 0⟩).1 (by decide)).1,
   ((c9_hash_block_checks (3, ⟨1, 2, 3, 4⟩) ⟨1, 2, 3, 4⟩).2 rfl).1⟩

/-- Claim C10: at row 0 both virtual-table builders treat the previous-row
continuation flags `f_mva` / `f_mua` as absent (row `-1` is never read): the
row-0 contribution is a function of row-0 data only (`f_mv` resp. `f_mu`,
node index and hasher state of row 0) and is the identity when the flag is
clear. -/
theorem c10_vtable_row_zero {E : Type} [CommRing E] [Algebra Felt E]
    (mt : MainTrace) (alphas : ℕ → E) :
    chiplets_vtable_add_sibling mt alphas 0 =
      (if mt.f_mv 0 then
        sibValue alphas (mt.chiplet_node_index 0) (mt.chiplet_hasher_state 0)
      else 1) ∧
    chiplets_vtable_remove_sibling mt alphas 0 =
      (if mt.f_mu 0 then
        sibValue alphas (mt.chiplet_node_index 0) (mt.chiplet_hasher_state 0)
      else 1) := by
  constructor
  · unfold chiplets_vtable_add_sibling sibValue
    cases hf : mt.f_mv 0 <;> simp [hf]
  · unfold chiplets_vtable_remove_sibling sibValue
    cases hf : mt.f_mu 0 <;> simp [hf]

/-- Claim C4: whenever the deposit gate (`f_mv` at the row, or `f_mva` at the
previous row) and the withdrawal gate (`f_mu` / previous-row `f_mua`) are
active on rows carrying the same selected node index and the same hasher
state, the sibling value deposited by `chiplets_vtable_add_sibling` equals
the value withdrawn by `chiplets_vtable_remove_sibling`; the sibling word
comes from the digest (left) half `state[4..8]` when the node index is odd
and from the right half `state[8..12]` when it is even, and the matched
deposit/withdrawal pair contributes the multiplicative identity to `t_chip`. -/
theorem c4_sibling_deposit_withdraw {E : Type} [Field E] [Algebra Felt E]
    (alphas : ℕ → E) (mt1 mt2 : MainTrace) (r1 r2 : ℕ)
    (hgate1 : mt1.f_mv r1 = true ∨ (r1 ≠ 0 ∧ mt1.f_mva (r1 - 1) = true))
    (hgate2 : mt2.f_mu r2 = true ∨ (r2 ≠ 0 ∧ mt2.f_mua (r2 - 1) = true))
    (hidx : vtableAddIndex mt1 r1 = vtableRemoveIndex mt2 r2)
    (hstate : ∀ i, mt1.chiplet_hasher_state r1 i = mt2.chiplet_hasher_state r2 i) :
    chiplets_vtable_add_sibling mt1 alphas r1 =
      chiplets_vtable_remove_sibling mt2 alphas r2 ∧
    ((vtableAddIndex mt1 r1).val % 2 = 1 →
      chiplets_vtable_add_sibling mt1 alphas r1 =
        alphas 0 + mulBase (alphas 3) (vtableAddIndex mt1 r1)
          + mulBase (alphas 8) (mt1.chiplet_hasher_state r1 4)
          + mulBase (alphas 9) (mt1.chiplet_hasher_state r1 5)
          + mulBase (alphas 10) (mt1.chiplet_hasher_state r1 6)
          + mulBase (alphas 11) (mt1.chiplet_hasher_state r1 7)) ∧
    ((vtableAddIndex mt1 r1).val % 2 = 0 →
      chiplets_vtable_add_sibling mt1 alphas r1 =
        alphas 0 + mulBase (alphas 3) (vtableAddIndex mt1 r1)
          + mulBase (alphas 12) (mt1.chiplet_hasher_state r1 8)
          + mulBase (alphas 13) (mt1.chiplet_hasher_state r1 9)
          + mulBase (alphas 14) (mt1.chiplet_hasher_state r1 10)
          + mulBase (alphas 15) (mt1.chiplet_hasher_state r1 11)) ∧
    (chiplets_vtable_remove_sibling mt2 alphas r2 ≠ 0 →
      chiplets_vtable_add_sibling mt1 alphas r1
        * (chiplets_vtable_remove_sibling mt2 alphas r2)⁻¹ = 1) := by
  have hadd := add_sibling_eq_of_gate mt1 alphas r1 hgate1
  have hrem := remove_sibling_eq_of_gate mt2 alphas r2 hgate2
  have hsib : sibValue alphas (vtableAddIndex mt1 r1) (mt1.chiplet_hasher_state r1) =
      sibValue alphas (vtableRemoveIndex mt2 r2) (mt2.chiplet_hasher_state r2) := by
    rw [← hidx]
    unfold sibValue
    by_cases hpar : (vtableAddIndex mt1 r1).val % 2 = 0
    · rw [if_pos hpar, if_pos hpar, hstate 8, hstate 9, hstate 10, hstate 11]
    · rw [if_neg hpar, if_neg hpar, hstate 4, hstate 5, hstate 6, hstate 7]
  have hmain : chiplets_vtable_add_sibling mt1 alphas r1 =
      chiplets_vtable_remove_sibling mt2 alphas r2 := by
    rw [hadd, hrem, hsib]
  refine ⟨hmain, ?_, ?_, ?_⟩
  · intro hodd
    rw [hadd]
    unfold sibValue
    rw [if_neg (by omega)]
  · intro heven
    rw [hadd]
    unfold sibValue
    rw [if_pos heven]
  · intro hnz
    rw [hmain]
    exact mul_inv_cancel₀ hnz

/-- Witness for C4 at a concrete trace: deposit and withdrawal coincide for
node index 5 and hasher state `i ↦ i`. -/
theorem c4_sibling_deposit_withdraw_witness :
    chiplets_vtable_add_sibling (E := Felt) mtSib (fun n => (n : Felt)) 0 =
      chiplets_vtable_remove_sibling (E := Felt) mtSib (fun n => (n : Felt)) 0 :=
  (c4_sibling_deposit_withdraw (fun n => (n : Felt)) mtSib mtSib 0 0
    (Or.inl rfl) (Or.inl rfl) rfl (fun _ => rfl)).1

/-- Claim C3: a bitwise request built from a stack triple `(a, b, z)` at a
request row equals the bitwise chiplet response built at a cycle-final row
whose chiplet columns carry the same triple (with the same `is_xor` flag),
so the bus ratio across the matched event is 1. -/
theorem c3_bitwise_request_response {E : Type} [Field E] [Algebra Felt E]
    (mt : MainTrace) (alphas : ℕ → E) (is_xor : Felt) (i j : ℕ) (a b z : Felt)
    (h1 : mt.stack_element 1 i = a) (h2 : mt.stack_element 0 i = b)
    (h3 : mt.stack_element 0 (i + 1) = z)
    (h4 : mt.chiplet_bitwise_a j = a) (h5 : mt.chiplet_bitwise_b j = b)
    (h6 : mt.chiplet_bitwise_z j = z)
    (hj : j % BITWISE_OP_CYCLE_LEN = BITWISE_OP_CYCLE_LEN - 1) :
    build_bitwise_request mt is_xor alphas i =
      build_bitwise_chiplet_responses mt j is_xor alphas ∧
    (build_bitwise_request mt is_xor alphas i ≠ 0 →
      build_bitwise_chiplet_responses mt j is_xor alphas
        / build_bitwise_request mt is_xor alphas i = 1) := by
  have hmain : build_bitwise_request mt is_xor alphas i =
      build_bitwise_chiplet_responses mt j is_xor alphas := by
    unfold build_bitwise_request build_bitwise_chiplet_responses
    rw [if_pos hj, h1, h2, h3, h4, h5, h6]
  refine ⟨hmain, fun hnz => ?_⟩
  rw [← hmain]
  exact div_self hnz

/-- Witness for C3 with the spec's concrete scenario `a = 0b1010`,
`b = 0b0110`, `z = 0b0010` at request row 0 and response row 7. -/
theorem c3_bitwise_request_response_witness :
    build_bitwise_request (E := Felt) mtBitwise 0 (fun n => (n : Felt)) 0 =
      build_bitwise_chiplet_responses (E := Felt) mtBitwise 7 0 (fun n => (n : Felt)) :=
  (c3_bitwise_request_response mtBitwise (fun n => (n : Felt)) 0 0 7 10 6 2
    rfl rfl rfl rfl rfl rfl (by decide)).1

section BusColumn

variable {E : Type} [Field E]

lemma buildAuxColumn_mul_req (req resp : ℕ → E) (hreq : ∀ i, req i ≠ 0) (i : ℕ) :
    buildAuxColumn req resp i * req i =
      (if i = 0 then 1 else buildAuxColumn req resp (i - 1)) * resp i := by
  cases i with
  | zero =>
    rw [if_pos rfl, one_mul]
    show resp 0 / req 0 * req 0 = resp 0
    exact div_mul_cancel₀ _ (hreq 0)
  | succ j =>
    rw [if_neg (Nat.succ_ne_zero j), Nat.add_sub_cancel]
    show buildAuxColumn req resp j * resp (j + 1) / req (j + 1) * req (j + 1) =
      buildAuxColumn req resp j * resp (j + 1)
    exact div_mul_cancel₀ _ (hreq (j + 1))

lemma buildAuxColumn_mul_prod (req resp : ℕ → E) (hreq : ∀ i, req i ≠ 0) :
    ∀ m, buildAuxColumn req resp m * ∏ i ∈ Finset.range (m + 1), req i =
      ∏ i ∈ Finset.range (m + 1), resp i := by
  intro m
  induction m with
  | zero =>
    rw [show (0 : ℕ) + 1 = 1 from rfl, Finset.prod_range_one, Finset.prod_range_one]
    show resp 0 / req 0 * req 0 = resp 0
    exact div_mul_cancel₀ _ (hreq 0)
  | succ j ih =>
    rw [Finset.prod_range_succ req (j + 1), Finset.prod_range_succ resp (j + 1)]
    have hstep : buildAuxColumn req resp (j + 1) * req (j + 1) =
        buildAuxColumn req resp j * resp (j + 1) := by
      show buildAuxColumn req resp j * resp (j + 1) / req (j + 1) * req (j + 1) =
        buildAuxColumn req resp j * resp (j + 1)
      exact div_mul_cancel₀ _ (hreq (j + 1))
    calc buildAuxColumn req resp (j + 1) *
          ((∏ i ∈ Finset.range (j + 1), req i) * req (j + 1))
        = (buildAuxColumn req resp (j + 1) * req (j + 1))
            * ∏ i ∈ Finset.range (j + 1), req i := by ring
      _ = (buildAuxColumn req resp j * resp (j + 1))
            * ∏ i ∈ Finset.range (j + 1), req i := by rw [hstep]
      _ = (buildAuxColumn req resp j * ∏ i ∈ Finset.range (j + 1), req i)
            * resp (j + 1) := by ring
      _ = (∏ i ∈ Finset.range (j + 1), resp i) * resp (j + 1) := by rw [ih]

lemma buildAuxColumn_final (req resp : ℕ → E) (hreq : ∀ i, req i ≠ 0) (m : ℕ)
    (h : ∏ i ∈ Finset.range (m + 1), req i = ∏ i ∈ Finset.range (m + 1), resp i) :
    buildAuxColumn req resp m = 1 := by
  have hP : ∏ i ∈ Finset.range (m + 1), req i ≠ 0 :=
    Finset.prod_ne_zero_iff.mpr fun i _ => hreq i
  have hmp := buildAuxColumn_mul_prod req resp hreq m
  rw [← h] at hmp
  exact mul_right_cancel₀ hP (hmp.trans (one_mul _).symm)

variable [Algebra Felt E]

/-- Claim C1: the bus column `b_chip` is the second column returned by
`build_aux_columns`; for every main trace and challenge draw with nonzero
per-row requests it satisfies `b_chip[i] * request(i) = b_chip[i-1] *
response(i)` with `b_chip[-1] = 1` (where `request` / `response` are
`BusColumnBuilder::get_requests_at` / `get_responses_at`), and whenever the
requests and responses multiply to the same total — as they do for a correct
execution — the final value is 1. -/
theorem c1_bus_column (k : ExtConsts) (mt : MainTrace) (alphas : ℕ → E)
    (hreq : ∀ i, bus_get_requests_at k mt alphas i ≠ 0) :
    (build_aux_columns k mt alphas).get? 1 =
      some (buildAuxColumn (bus_get_requests_at k mt alphas)
        (bus_get_responses_at k mt alphas)) ∧
    (∀ i, buildAuxColumn (bus_get_requests_at k mt alphas)
          (bus_get_responses_at k mt alphas) i * bus_get_requests_at k mt alphas i =
      (if i = 0 then 1
        else buildAuxColumn (bus_get_requests_at k mt alphas)
          (bus_get_responses_at k mt alphas) (i - 1)) * bus_get_responses_at k mt alphas i) ∧
    (∀ m, (∏ i ∈ Finset.range (m + 1), bus_get_requests_at k mt alphas i) =
        (∏ i ∈ Finset.range (m + 1), bus_get_responses_at k mt alphas i) →
      buildAuxColumn (bus_get_requests_at k mt alphas)
        (bus_get_responses_at k mt alphas) m = 1) :=
  ⟨rfl, buildAuxColumn_mul_req _ _ hreq,
    fun m => buildAuxColumn_final _ _ hreq m⟩

/-- Witness for C1 at a concrete trace (all-zero accessors, unit challenges):
the row-0 recurrence instance `b_chip[0] * request(0) = 1 * response(0)`. -/
theorem c1_bus_column_witness :
    buildAuxColumn (bus_get_requests_at (E := Felt) kW mtTriv fun _ => 1)
        (bus_get_responses_at (E := Felt) kW mtTriv fun _ => 1) 0
      * bus_get_requests_at (E := Felt) kW mtTriv (fun _ => 1) 0 =
    1 * bus_get_responses_at (E := Felt) kW mtTriv (fun _ => 1) 0 := by
  have hreq : ∀ i, bus_get_requests_at (E := Felt) kW mtTriv (fun _ => 1) i ≠ 0 := by
    intro i
    have hone : bus_get_requests_at (E := Felt) kW mtTriv (fun _ => 1) i = 1 := rfl
    rw [hone]
    exact one_ne_zero
  have h := (c1_bus_column kW mtTriv (fun _ => 1) hreq).2.1 0
  simpa using h

end BusColumn

/-!
## Selector-column characterization of the composed table
-/

lemma fill_trace_col0 (c : Chiplets) (row : ℕ) :
    c.fill_trace 0 row = if c.bitwise_start ≤ row then 1 else 0 := by
  rw [fill_trace_eq_selector c 0 row (Or.inl (by decide)) (Or.inl (by decide))
    (Or.inl (by decide)) (Or.inl (by decide))]
  rw [if_neg (by omega), if_neg (by omega), if_neg (by omega)]
  by_cases h : c.bitwise_start ≤ row
  · rw [if_pos ⟨rfl, h⟩, if_pos h]
  · rw [if_neg (fun hc => h hc.2), if_neg h]

lemma fill_trace_col1 (c : Chiplets) (row : ℕ) (hrow : c.hasher.trace_len ≤ row) :
    c.fill_trace 1 row = if c.memory_start ≤ row then 1 else 0 := by
  rw [fill_trace_eq_selector c 1 row (Or.inr (Or.inr (by omega)))
    (Or.inl (by decide)) (Or.inl (by decide)) (Or.inl (by decide))]
  rw [if_neg (by omega), if_neg (by omega)]
  by_cases h : c.memory_start ≤ row
  · rw [if_pos ⟨rfl, h⟩, if_pos h]
  · rw [if_neg (fun hc => h hc.2), if_neg h, if_neg (by omega)]

lemma fill_trace_col2 (c : Chiplets) (row : ℕ) (hrow : c.memory_start ≤ row) :
    c.fill_trace 2 row = if c.kernel_rom_start ≤ row then 1 else 0 := by
  have e1 : c.bitwise_start = c.hasher.trace_len := rfl
  have e2 : c.memory_start = c.bitwise_start + c.bitwise.trace_len := rfl
  rw [fill_trace_eq_selector c 2 row (Or.inr (Or.inr (by omega)))
    (Or.inr (Or.inr (by omega))) (Or.inl (by decide)) (Or.inl (by decide))]
  rw [if_neg (by omega)]
  by_cases h : c.kernel_rom_start ≤ row
  · rw [if_pos ⟨rfl, h⟩, if_pos h]
  · rw [if_neg (fun hc => h hc.2), if_neg h, if_neg (by omega), if_neg (by omega)]

lemma fill_trace_col3 (c : Chiplets) (row : ℕ) (hrow : c.kernel_rom_start ≤ row) :
    c.fill_trace 3 row = if c.padding_start ≤ row then 1 else 0 := by
  have e1 : c.bitwise_start = c.hasher.trace_len := rfl
  have e2 : c.memory_start = c.bitwise_start + c.bitwise.trace_len := rfl
  have e3 : c.kernel_rom_start = c.memory_start + c.memory.trace_len := rfl
  rw [fill_trace_eq_selector c 3 row (Or.inr (Or.inr (by omega)))
    (Or.inr (Or.inr (by omega))) (Or.inr (Or.inr (by omega))) (Or.inl (by decide))]
  by_cases h : c.padding_start ≤ row
  · rw [if_pos ⟨rfl, h⟩, if_pos h]
  · rw [if_neg (fun hc => h hc.2), if_neg h, if_neg (by omega), if_neg (by omega),
      if_neg (by omega)]

/-- Claim C5 counterexample: in a state whose hasher has one trace row with
recorded value 1, row 0 lies in the hasher segment but selector column 1
holds the hasher's content 1, not the claimed `0000` pattern — columns 1-3
of hasher-segment rows belong to the hasher's fill window. -/
theorem c5_counterexample :
    0 < cHasher1.bitwise_start ∧ cHasher1.fill_trace 1 0 = 1 ∧ (1 : Felt) ≠ 0 :=
  ⟨by decide, by decide, one_ne_zero⟩

/-- Claim C5 (amended): after `fill_trace` every row carries its segment's
unary selector *prefix*: column 0 is 0 on hasher rows; columns 0-1 are 1,0
on bitwise rows; columns 0-2 are 1,1,0 on memory rows; columns 0-3 are
1,1,1,0 on kernel-ROM rows and 1,1,1,1 on padding rows.  (The columns after
the prefix belong to the owning chiplet's fill window, so the prefixes —
not full 4-bit patterns — uniquely determine segment membership.) -/
theorem c5_selector_prefixes (c : Chiplets) (row : ℕ) :
    (row < c.bitwise_start → c.fill_trace 0 row = 0) ∧
    (c.bitwise_start ≤ row → row < c.memory_start →
      c.fill_trace 0 row = 1 ∧ c.fill_trace 1 row = 0) ∧
    (c.memory_start ≤ row → row < c.kernel_rom_start →
      c.fill_trace 0 row = 1 ∧ c.fill_trace 1 row = 1 ∧ c.fill_trace 2 row = 0) ∧
    (c.kernel_rom_start ≤ row → row < c.padding_start →
      c.fill_trace 0 row = 1 ∧ c.fill_trace 1 row = 1 ∧ c.fill_trace 2 row = 1 ∧
      c.fill_trace 3 row = 0) ∧
    (c.padding_start ≤ row →
      c.fill_trace 0 row = 1 ∧ c.fill_trace 1 row = 1 ∧ c.fill_trace 2 row = 1 ∧
      c.fill_trace 3 row = 1) := by
  have e1 : c.bitwise_start = c.hasher.trace_len := rfl
  have e2 : c.memory_start = c.bitwise_start + c.bitwise.trace_len := rfl
  have e3 : c.kernel_rom_start = c.memory_start + c.memory.trace_len := rfl
  have e4 : c.padding_start = c.kernel_rom_start + c.kernel_rom.trace_len := rfl
  refine ⟨fun h1 => ?_, fun hbs hms => ⟨?_, ?_⟩, fun hms hks => ⟨?_, ?_, ?_⟩,
    fun hks hps => ⟨?_, ?_, ?_, ?_⟩, fun hps => ⟨?_, ?_, ?_, ?_⟩⟩
  · rw [fill_trace_col0, if_neg (by omega)]
  · rw [fill_trace_col0, if_pos (by omega)]
  · rw [fill_trace_col1 c row (by omega), if_neg (by omega)]
  · rw [fill_trace_col0, if_pos (by omega)]
  · rw [fill_trace_col1 c row (by omega), if_pos (by omega)]
  · rw [fill_trace_col2 c row (by omega), if_neg (by omega)]
  · rw [fill_trace_col0, if_pos (by omega)]
  · rw [fill_trace_col1 c row (by omega), if_pos (by omega)]
  · rw [fill_trace_col2 c row (by omega), if_pos (by omega)]
  · rw [fill_trace_col3 c row (by omega), if_neg (by omega)]
  · rw [fill_trace_col0, if_pos (by omega)]
  · rw [fill_trace_col1 c row (by omega), if_pos (by omega)]
  · rw [fill_trace_col2 c row (by omega), if_pos (by omega)]
  · rw [fill_trace_col3 c row (by omega), if_pos (by omega)]

/-- Witness for C5 (amended) at a concrete state with one row per segment:
the five selector prefixes read off each segment's row. -/
theorem c5_selector_prefixes_witness :
    cOnes.fill_trace 0 0 = 0 ∧
    (cOnes.fill_trace 0 1 = 1 ∧ cOnes.fill_trace 1 1 = 0) ∧
    (cOnes.fill_trace 0 2 = 1 ∧ cOnes.fill_trace 1 2 = 1 ∧ cOnes.fill_trace 2 2 = 0) ∧
    (cOnes.fill_trace 0 3 = 1 ∧ cOnes.fill_trace 1 3 = 1 ∧ cOnes.fill_trace 2 3 = 1 ∧
      cOnes.fill_trace 3 3 = 0) ∧
    (cOnes.fill_trace 0 4 = 1 ∧ cOnes.fill_trace 1 4 = 1 ∧ cOnes.fill_trace 2 4 = 1 ∧
      cOnes.fill_trace 3 4 = 1) :=
  ⟨(c5_selector_prefixes cOnes 0).1 (by decide),
   (c5_selector_prefixes cOnes 1).2.1 (by decide) (by decide),
   (c5_selector_prefixes cOnes 2).2.2.1 (by decide) (by decide),
   (c5_selector_prefixes cOnes 3).2.2.2.1 (by decide) (by decide),
   (c5_selector_prefixes cOnes 4).2.2.2.2 (by decide)⟩

/-- Claim C6: every cell of the composed table lies in at most one chiplet's
fill window (the four chiplets' windows are pairwise disjoint, their row
ranges being the consecutive segments in hasher → bitwise → memory →
kernel-ROM order), and every cell of a padding-segment row is zero except in
the four selector columns, which carry the all-ones padding pattern. -/
theorem c6_cell_ownership (c : Chiplets) (col row : ℕ) :
    ¬((col ∈ hasherColumns ∧ row < c.hasher.trace_len) ∧
      (col ∈ bitwiseColumns ∧ c.bitwise_start ≤ row ∧
        row < c.bitwise_start + c.bitwise.trace_len)) ∧
    ¬((col ∈ hasherColumns ∧ row < c.hasher.trace_len) ∧
      (col ∈ memoryColumns ∧ c.memory_start ≤ row ∧
        row < c.memory_start + c.memory.trace_len)) ∧
    ¬((col ∈ hasherColumns ∧ row < c.hasher.trace_len) ∧
      (col ∈ kernelRomColumns ∧ c.kernel_rom_start ≤ row ∧
        row < c.kernel_rom_start + c.kernel_rom.trace_len)) ∧
    ¬((col ∈ bitwiseColumns ∧ c.bitwise_start ≤ row ∧
        row < c.bitwise_start + c.bitwise.trace_len) ∧
      (col ∈ memoryColumns ∧ c.memory_start ≤ row ∧
        row < c.memory_start + c.memory.trace_len)) ∧
    ¬((col ∈ bitwiseColumns ∧ c.bitwise_start ≤ row ∧
        row < c.bitwise_start + c.bitwise.trace_len) ∧
      (col ∈ kernelRomColumns ∧ c.kernel_rom_start ≤ row ∧
        row < c.kernel_rom_start + c.kernel_rom.trace_len)) ∧
    ¬((col ∈ memoryColumns ∧ c.memory_start ≤ row ∧
        row < c.memory_start + c.memory.trace_len) ∧
      (col ∈ kernelRomColumns ∧ c.kernel_rom_start ≤ row ∧
        row < c.kernel_rom_start + c.kernel_rom.trace_len)) ∧
    (c.padding_start ≤ row →
      (4 ≤ col → c.fill_trace col row = 0) ∧
      (col < 4 → c.fill_trace col row = 1)) := by
  have e1 : c.bitwise_start = c.hasher.trace_len := rfl
  have e2 : c.memory_start = c.bitwise_start + c.bitwise.trace_len := rfl
  have e3 : c.kernel_rom_start = c.memory_start + c.memory.trace_len := rfl
  have e4 : c.padding_start = c.kernel_rom_start + c.kernel_rom.trace_len := rfl
  refine ⟨?_, ?_, ?_, ?_, ?_, ?_, fun hps => ⟨fun hcol => ?_, fun hcol => ?_⟩⟩
  · rintro ⟨⟨-, ha⟩, ⟨-, hb, -⟩⟩
    omega
  · rintro ⟨⟨-, ha⟩, ⟨-, hb, -⟩⟩
    omega
  · rintro ⟨⟨-, ha⟩, ⟨-, hb, -⟩⟩
    omega
  · rintro ⟨⟨-, -, ha⟩, ⟨-, hb, -⟩⟩
    omega
  · rintro ⟨⟨-, -, ha⟩, ⟨-, hb, -⟩⟩
    omega
  · rintro ⟨⟨-, -, ha⟩, ⟨-, hb, -⟩⟩
    omega
  · rw [fill_trace_eq_selector c col row (Or.inr (Or.inr (by omega)))
      (Or.inr (Or.inr (by omega))) (Or.inr (Or.inr (by omega)))
      (Or.inr (Or.inr (by omega)))]
    rw [if_neg (by omega), if_neg (by omega), if_neg (by omega), if_neg (by omega)]
  · interval_cases col
    · rw [fill_trace_col0, if_pos (by omega)]
    · rw [fill_trace_col1 c row (by omega), if_pos (by omega)]
    · rw [fill_trace_col2 c row (by omega), if_pos (by omega)]
    · rw [fill_trace_col3 c row (by omega), if_pos (by omega)]

/-- Witness for C6 at a concrete state with one row per segment: the padding
row 4 is zero in a non-selector column and one in the selector columns. -/
theorem c6_cell_ownership_witness :
    cOnes.fill_trace 5 4 = 0 ∧ cOnes.fill_trace 0 4 = 1 :=
  ⟨((c6_cell_ownership cOnes 5 4).2.2.2.2.2.2 (by decide)).1 (by decide),
   ((c6_cell_ownership cOnes 0 4).2.2.2.2.2.2 (by decide)).2 (by decide)⟩

end MidenChiplets
